import Mathlib

/-!
Verification development for the monster AI decision engine
(creatures/monsters/monster.cpp of the canary server emulator).

The C++ routines relevant to the checked properties are shallowly
embedded below.  External collaborators (world/tile queries, sight
checks, the random generator, wall-clock time) are passed in as
explicit oracle parameters; per-creature mutable members become
explicit state records that every embedded routine threads through.
Machine integers of the source are modelled as Int (the source values
involved stay far away from any wrap-around).
-/

namespace MonsterAI

/-! ## Geometry (Position helpers used by monster.cpp) -/

structure Position where
  x : Int
  y : Int
  z : Int
deriving DecidableEq, Repr

/-- Position with all fields zero: the value of a default-constructed
`Position()` in the source, used as the "no spawn anchor" sentinel. -/
def Position.zero : Position := ⟨0, 0, 0⟩

def getDistanceX (p q : Position) : Int := |p.x - q.x|

def getDistanceY (p q : Position) : Int := |p.y - q.y|

def getOffsetX (p q : Position) : Int := p.x - q.x

def getOffsetY (p q : Position) : Int := p.y - q.y

/-- Chebyshev distance `std::max(getDistanceX, getDistanceY)` as computed
throughout monster.cpp. -/
def chebDist (p q : Position) : Int := max (getDistanceX p q) (getDistanceY p q)

/-! ## Directions and target-search strategies -/

inductive Direction where
  | DIRECTION_NORTH
  | DIRECTION_SOUTH
  | DIRECTION_EAST
  | DIRECTION_WEST
  | DIRECTION_NORTHEAST
  | DIRECTION_NORTHWEST
  | DIRECTION_SOUTHEAST
  | DIRECTION_SOUTHWEST
deriving DecidableEq, Repr

inductive TargetSearchType_t where
  | TARGETSEARCH_DEFAULT
  | TARGETSEARCH_NEAREST
  | TARGETSEARCH_HP
  | TARGETSEARCH_DAMAGE
  | TARGETSEARCH_RANDOM
deriving DecidableEq, Repr

open Direction TargetSearchType_t

/-! ## Target-change governor (Monster::onThinkTarget, monster.cpp 1052-1099)

Per-creature mutable members `challengeFocusDuration`,
`m_targetChangeCooldown` and `targetChangeTicks` form the state.
`roll` is the value produced by `uniform_random(1, 100)`. -/

structure ThinkTargetState where
  challengeFocusDuration : Int
  targetChangeCooldown : Int
  targetChangeTicks : Int
deriving DecidableEq, Repr

structure ThinkTargetResult where
  state : ThinkTargetState
  search : Option TargetSearchType_t
deriving DecidableEq, Repr

def onThinkTarget (isSummon : Bool) (changeTargetSpeed changeTargetChance : Int)
    (infoTargetDistance : Int) (interval : Int) (roll : Int)
    (s : ThinkTargetState) : ThinkTargetResult :=
  if isSummon then ⟨s, none⟩
  else if changeTargetSpeed = 0 then ⟨s, none⟩
  else
    let fd := s.challengeFocusDuration
    let focusStep : Int × Bool :=
      if fd > 0 then
        let d := fd - interval
        (if d ≤ 0 then 0 else d, false)
      else (fd, true)
    let cfd := focusStep.1
    let canChange1 := focusStep.2
    let cdStep : Int × Int × Bool :=
      if s.targetChangeCooldown > 0 then
        let c := s.targetChangeCooldown - interval
        if c ≤ 0 then (0, changeTargetSpeed, canChange1)
        else (c, s.targetChangeTicks, false)
      else (s.targetChangeCooldown, s.targetChangeTicks, canChange1)
    let cooldown := cdStep.1
    let ticks0 := cdStep.2.1
    let canChange := cdStep.2.2
    if canChange then
      let ticks1 := ticks0 + interval
      if ticks1 ≥ changeTargetSpeed then
        let cfd2 := if cfd > 0 then 0 else cfd
        let search :=
          if changeTargetChance ≥ roll then
            some (if infoTargetDistance ≤ 1 then TARGETSEARCH_RANDOM else TARGETSEARCH_NEAREST)
          else none
        ⟨⟨cfd2, changeTargetSpeed, 0⟩, search⟩
      else ⟨⟨cfd, cooldown, ticks1⟩, none⟩
    else ⟨⟨cfd, cooldown, ticks0⟩, none⟩

/-! ## Dance step (Monster::getDanceStep, monster.cpp 1447-1535)

`attackedPos` is the attacked creature's position (none when there is no
attacked creature, in which case the source bails out immediately).
`canWalkTo` and `canUseAttackFrom` are the world oracles behind
`Monster::canWalkTo(creaturePos, dir)` and
`Monster::canUseAttack(pos, attackedCreature)`.  The source shuffles the
qualifying directions and picks one uniformly; the embedding returns the
qualifying list together with the boolean result (true iff the list is
nonempty), which is all the checked properties depend on. -/

def getDanceStep (attackedPos : Option Position) (creaturePos : Position)
    (targetDistance : Int) (canWalkTo : Direction → Bool)
    (canUseAttackFrom : Position → Bool) (keepAttack keepDistance : Bool) :
    Bool × List Direction :=
  match attackedPos with
  | none => (false, [])
  | some centerPos =>
    let canDoAttackNow := canUseAttackFrom creaturePos
    let offset_x := getOffsetX creaturePos centerPos
    let offset_y := getOffsetY creaturePos centerPos
    let distance_x := |offset_x|
    let distance_y := |offset_y|
    let centerToDist := max distance_x distance_y
    -- monsters not at targetDistance shouldn't dancestep
    if centerToDist < targetDistance then (false, [])
    else
      let dirList : List Direction := []
      let dirList :=
        if ¬keepDistance ∨ offset_y ≥ 0 then
          let tmpDist := max distance_x |creaturePos.y - 1 - centerPos.y|
          if tmpDist = centerToDist ∧ canWalkTo DIRECTION_NORTH then
            if ¬keepAttack ∨ (¬canDoAttackNow ∨
                canUseAttackFrom ⟨creaturePos.x, creaturePos.y - 1, creaturePos.z⟩) then
              dirList ++ [DIRECTION_NORTH]
            else dirList
          else dirList
        else dirList
      let dirList :=
        if ¬keepDistance ∨ offset_y ≤ 0 then
          let tmpDist := max distance_x |creaturePos.y + 1 - centerPos.y|
          if tmpDist = centerToDist ∧ canWalkTo DIRECTION_SOUTH then
            if ¬keepAttack ∨ (¬canDoAttackNow ∨
                canUseAttackFrom ⟨creaturePos.x, creaturePos.y + 1, creaturePos.z⟩) then
              dirList ++ [DIRECTION_SOUTH]
            else dirList
          else dirList
        else dirList
      let dirList :=
        if ¬keepDistance ∨ offset_x ≤ 0 then
          let tmpDist := max |creaturePos.x + 1 - centerPos.x| distance_y
          if tmpDist = centerToDist ∧ canWalkTo DIRECTION_EAST then
            if ¬keepAttack ∨ (¬canDoAttackNow ∨
                canUseAttackFrom ⟨creaturePos.x + 1, creaturePos.y, creaturePos.z⟩) then
              dirList ++ [DIRECTION_EAST]
            else dirList
          else dirList
        else dirList
      let dirList :=
        if ¬keepDistance ∨ offset_x ≥ 0 then
          let tmpDist := max |creaturePos.x - 1 - centerPos.x| distance_y
          if tmpDist = centerToDist ∧ canWalkTo DIRECTION_WEST then
            if ¬keepAttack ∨ (¬canDoAttackNow ∨
                canUseAttackFrom ⟨creaturePos.x - 1, creaturePos.y, creaturePos.z⟩) then
              dirList ++ [DIRECTION_WEST]
            else dirList
          else dirList
        else dirList
      (!dirList.isEmpty, dirList)

/-! ## Nearest-target selection (Monster::searchTarget, TARGETSEARCH_NEAREST
branch over a nonempty candidate list, monster.cpp 613-655)

A candidate carries the data the branch reads: its position and faction.
The branch seeds the running minimum with the first candidate's plain
Chebyshev distance, freezes `factionOffset` from the first candidate's
faction, and then scans the remaining candidates comparing
`chebDist + factionOffset` against the running minimum. -/

structure TargetCandidate where
  pos : Position
  faction : Int
deriving DecidableEq, Repr

def searchTargetNearest (myPos : Position) (resultList : List TargetCandidate) :
    Option TargetCandidate :=
  match resultList with
  | [] => none
  | t0 :: rest =>
    let factionOffset := t0.faction * 100
    let chosen := rest.foldl
      (fun (acc : TargetCandidate × Int) c =>
        let distance := chebDist myPos c.pos + factionOffset
        if distance < acc.2 then (c, distance) else acc)
      (t0, chebDist myPos t0.pos)
    some chosen.1

/-! ## Idle state re-evaluation (Monster::updateIdleStatus and
Monster::isInSpawnLocation, monster.cpp 818-842)

All creature queries the routine makes become explicit input fields.
`faction` is 0 for FACTION_DEFAULT.  The result is the computed idle
flag together with the updated `isWalkingBack` member (`setIdle` then
applies the flag to a live creature). -/

structure IdleInput where
  conditionsEmpty : Bool
  isSummon : Bool
  targetListEmpty : Bool
  hasSpawnMonster : Bool
  position : Position
  masterPos : Position
  hasMaster : Bool
  totalPlayersOnScreen : Nat
  masterIsMonster : Bool
  masterTotalPlayersOnScreen : Nat
  faction : Int
  isWalkingBack : Bool
deriving DecidableEq, Repr

def isInSpawnLocation (hasSpawnMonster : Bool) (position masterPos : Position) : Bool :=
  if ¬hasSpawnMonster then true
  else position = masterPos ∨ masterPos = Position.zero

structure IdleResult where
  idle : Bool
  isWalkingBack : Bool
deriving DecidableEq, Repr

def updateIdleStatus (inp : IdleInput) : IdleResult :=
  if inp.conditionsEmpty then
    if ¬inp.isSummon ∧ inp.targetListEmpty then
      if isInSpawnLocation inp.hasSpawnMonster inp.position inp.masterPos then
        ⟨true, inp.isWalkingBack⟩
      else ⟨false, true⟩
    else if inp.hasMaster then
      if ((¬inp.isSummon ∧ inp.totalPlayersOnScreen = 0) ∨
          (inp.isSummon ∧ inp.masterIsMonster ∧ inp.masterTotalPlayersOnScreen = 0)) ∧
          inp.faction ≠ 0 then
        ⟨true, inp.isWalkingBack⟩
      else ⟨false, inp.isWalkingBack⟩
    else ⟨false, inp.isWalkingBack⟩
  else ⟨false, inp.isWalkingBack⟩

/-! ## Attack scheduling (Monster::canUseSpell, monster.cpp 1020-1050,
and Monster::doAttacking, monster.cpp 949-1004)

`spellBlock_t` keeps the template fields the two routines read
(`hasSpell` stands for `spell != nullptr`).  The mutable creature
members `attackTicks`, `extraMeleeAttack`, `lastMeleeAttack`,
`minCombatValue` and `maxCombatValue` form `AttackState`; `now` is the
value of `OTSYS_TIME()` during the call and `roll` the oracle behind
`uniform_random(1, 30)`, indexed by the spell's position in the attack
list.  Spell casting itself is a world effect; the embedding records the
indices of the spells cast. -/

structure spellBlock_t where
  speed : Int
  range : Int
  chance : Int
  isMelee : Bool
  hasSpell : Bool
  minCombatValue : Int
  maxCombatValue : Int
deriving DecidableEq, Repr

structure AttackState where
  attackTicks : Int
  extraMeleeAttack : Bool
  lastMeleeAttack : Int
  minCombatValue : Int
  maxCombatValue : Int
deriving DecidableEq, Repr

structure CanUseSpellResult where
  ok : Bool
  inRange : Bool
  resetTicks : Bool
  lastMeleeAttack : Int
deriving DecidableEq, Repr

def canUseSpell (pos targetPos : Position) (sb : spellBlock_t) (interval : Int)
    (resetTicks : Bool) (fleeing : Bool) (now : Int) (st : AttackState) :
    CanUseSpellResult :=
  -- inRange starts out true
  if sb.isMelee ∧ fleeing then ⟨false, true, resetTicks, st.lastMeleeAttack⟩
  else
    let last := if st.extraMeleeAttack then now else st.lastMeleeAttack
    if ¬st.extraMeleeAttack ∧ sb.isMelee ∧ now - st.lastMeleeAttack < 1500 then
      ⟨false, true, resetTicks, last⟩
    else if (¬sb.isMelee ∨ ¬st.extraMeleeAttack) ∧ sb.speed > st.attackTicks then
      ⟨false, true, false, last⟩
    else if (¬sb.isMelee ∨ ¬st.extraMeleeAttack) ∧ st.attackTicks % sb.speed ≥ interval then
      -- already used this spell for this round
      ⟨false, true, resetTicks, last⟩
    else if sb.range ≠ 0 ∧ chebDist pos targetPos > sb.range then
      ⟨false, false, resetTicks, last⟩
    else ⟨true, true, resetTicks, last⟩

structure AttackLoopState where
  st : AttackState
  resetTicks : Bool
  updateLook : Bool
  casts : List Nat
deriving DecidableEq, Repr

def doAttackingStep (pos targetPos : Position) (interval : Int) (fleeing : Bool)
    (now : Int) (roll : Nat → Int) (acc : AttackLoopState)
    (isb : Nat × spellBlock_t) : AttackLoopState :=
  let i := isb.1
  let sb := isb.2
  if ¬sb.hasSpell ∨ (sb.isMelee ∧ fleeing) then acc
  else
    let r := canUseSpell pos targetPos sb interval acc.resetTicks fleeing now acc.st
    let acc1 : AttackLoopState :=
      { acc with
        st := { acc.st with lastMeleeAttack := r.lastMeleeAttack }
        resetTicks := r.resetTicks }
    let acc2 : AttackLoopState :=
      if r.ok ∧ sb.chance ≥ roll i then
        { acc1 with
          updateLook := false
          st := { acc1.st with
                  minCombatValue := sb.minCombatValue
                  maxCombatValue := sb.maxCombatValue
                  extraMeleeAttack :=
                    if sb.isMelee then false else acc1.st.extraMeleeAttack }
          casts := acc1.casts ++ [i] }
      else acc1
    if ¬r.inRange ∧ sb.isMelee then
      -- melee swing out of reach
      { acc2 with st := { acc2.st with extraMeleeAttack := true } }
    else acc2

structure DoAttackingResult where
  st : AttackState
  casts : List Nat
deriving DecidableEq, Repr

def doAttacking (hasTarget : Bool) (pos targetPos : Position)
    (attackSpells : List spellBlock_t) (interval : Int) (fleeing : Bool)
    (now : Int) (roll : Nat → Int) (st0 : AttackState) : DoAttackingResult :=
  if ¬hasTarget then ⟨st0, []⟩
  else
    let resetTicks : Bool := interval ≠ 0
    let st1 : AttackState := { st0 with attackTicks := st0.attackTicks + interval }
    let final := attackSpells.enum.foldl
      (doAttackingStep pos targetPos interval fleeing now roll)
      ⟨st1, resetTicks, true, []⟩
    if final.resetTicks then ⟨{ final.st with attackTicks := 0 }, final.casts⟩
    else ⟨final.st, final.casts⟩

/-! ## Defense scheduling and summoning (Monster::onThinkDefense,
monster.cpp 1101-1169)

Summon names are modelled as Nat.  `m_summons` becomes the list of names
of the live summons owned by the caster (ordering mirrors insertion
order; only membership counts matter here).  `sroll` is the oracle
behind the summon-loop `uniform_random(1, 100)` and `createOk i` states
that `Monster::createMonster` and `Game::placeCreature` both succeeded
for the i-th summon entry; casting a defense spell is a world effect,
so the defense-spell loop contributes only its reset-flag updates. -/

structure summonBlock_t where
  name : Nat
  speed : Int
  chance : Int
  count : Nat
  force : Bool
deriving DecidableEq, Repr

structure DefenseState where
  defenseTicks : Int
  summons : List Nat
deriving DecidableEq, Repr

def summonStep (maxSummons : Nat) (interval : Int) (ticks : Int) (sroll : Nat → Int)
    (createOk : Nat → Bool) (acc : List Nat × Bool) (ib : Nat × summonBlock_t) :
    List Nat × Bool :=
  let i := ib.1
  let b := ib.2
  let summons := acc.1
  let resetTicks := acc.2
  if b.speed > ticks then (summons, false)
  else if summons.length ≥ maxSummons then (summons, resetTicks)
  else if ticks % b.speed ≥ interval then (summons, resetTicks)
  else if summons.count b.name ≥ b.count then (summons, resetTicks)
  else if b.chance < sroll i then (summons, resetTicks)
  else if createOk i then (summons ++ [b.name], resetTicks)
  else (summons, resetTicks)

def onThinkDefense (isSummon hasFollowPath : Bool) (maxSummons : Nat)
    (defenseSpells : List spellBlock_t) (summonBlocks : List summonBlock_t)
    (interval : Int) (sroll : Nat → Int) (createOk : Nat → Bool)
    (st : DefenseState) : DefenseState :=
  let ticks := st.defenseTicks + interval
  let resetTicks0 := defenseSpells.foldl
    (fun rt sb => if sb.speed > ticks then false else rt) true
  let summonsReset :=
    if ¬isSummon ∧ st.summons.length < maxSummons ∧ hasFollowPath then
      summonBlocks.enum.foldl (summonStep maxSummons interval ticks sroll createOk)
        (st.summons, resetTicks0)
    else (st.summons, resetTicks0)
  ⟨if summonsReset.2 then 0 else ticks, summonsReset.1⟩

/-! ## Death bookkeeping (Monster::death, monster.cpp 2044-2068)

Creatures are identified by Nat ids.  A summon's post-death state is
what the loop leaves in the world: `changeHealth(-getHealth())` brings
its health to zero and `removeMaster()` nulls its master reference.
`m_summons` may hold null entries, which the loop skips, hence
`List (Option SummonState)`.  The forge-tracker removal, the death
sound and `onIdleStatus` are world effects outside this state.  The
embedding returns the monster's own cleared state together with the
released summons as they remain in the world. -/

structure SummonState where
  sid : Nat
  health : Int
  master : Option Nat
deriving DecidableEq, Repr

structure MonsterDeathState where
  attackedCreature : Option Nat
  summons : List (Option SummonState)
  targetList : List Nat
  friendList : List Nat
  dead : Bool
deriving DecidableEq, Repr

def death (st : MonsterDeathState) : MonsterDeathState × List (Option SummonState) :=
  let released := st.summons.map fun os =>
    match os with
    | none => none
    | some s => some { s with health := 0, master := none }
  (⟨none, [], [], [], true⟩, released)

/-! ## Friend/opponent classification (Monster::isFriend, monster.cpp
515-533, and Monster::isOpponent, monster.cpp 535-557)

`world` resolves a creature id to its record (for master lookups),
`partner` is the oracle behind `Player::isPartner`, `enemyFaction` the
oracle behind `Monster::isEnemyFaction`, and `factionPlayer` the value
of FACTION_PLAYER; faction 0 is FACTION_DEFAULT.  Pointer comparisons of
the source become id comparisons. -/

structure CreatureM where
  cid : Nat
  isPlayerC : Bool
  isMonsterC : Bool
  masterId : Option Nat
  faction : Int
  ignoredByMonsters : Bool
deriving DecidableEq, Repr

/-- `isSummon() && getMaster()->getPlayer()`: the id of the master when it
exists and is a player, none otherwise. -/
def masterPlayerId (world : Nat → Option CreatureM) (c : CreatureM) : Option Nat :=
  match c.masterId with
  | some mid =>
    match world mid with
    | some m => if m.isPlayerC then some mid else none
    | none => none
  | none => none

def isFriend (world : Nat → Option CreatureM) (partner : Nat → Nat → Bool)
    (self creature : CreatureM) : Bool :=
  let base := creature.isMonsterC && !creature.masterId.isSome
  match masterPlayerId world self with
  | some mid =>
    let tmpPlayer : Option Nat :=
      if creature.isPlayerC then some creature.cid
      else
        match creature.masterId with
        | some cmid =>
          match world cmid with
          | some cm => if cm.isPlayerC then some cmid else none
          | none => none
        | none => none
    match tmpPlayer with
    | some pid => if pid = mid ∨ partner mid pid then true else base
    | none => base
  | none => base

def isOpponent (world : Nat → Option CreatureM) (enemyFaction : Int → Bool)
    (factionPlayer : Int) (self : CreatureM) (creature : Option CreatureM) : Bool :=
  match creature with
  | none => false
  | some c =>
    match masterPlayerId world self with
    | some mid => decide (c.cid ≠ mid)
    | none =>
      if c.isPlayerC ∧ c.ignoredByMonsters then false
      else if self.faction ≠ 0 then enemyFaction c.faction || decide (c.faction = factionPlayer)
      else if c.isPlayerC then true
      else
        match c.masterId with
        | some cmid =>
          match world cmid with
          | some cm => cm.isPlayerC
          | none => false
        | none => false

/-! ## Direct geometric step (Monster::getRandomStep, monster.cpp
1430-1445, and Monster::getDistanceStep, monster.cpp 1537-2027)

`canWalk` is the oracle behind `canWalkTo(creaturePos, dir)`,
`sightClear` the value of `isSightClear(creaturePos, targetPos, true)`,
`coin` the oracle behind `boolean_random()`, and `shuffled` the order
the shuffle gives the four cardinal directions in `getRandomStep`.  The
output's `moveDirection` is none exactly when the source returns without
assigning the caller's direction out-parameter. -/

def getRandomStep (canWalk : Direction → Bool) (shuffled : List Direction) :
    Option Direction :=
  shuffled.find? canWalk

structure DistanceStepResult where
  result : Bool
  moveDirection : Option Direction
  stepDuration : Int
deriving DecidableEq, Repr

def getDistanceStep (creaturePos targetPos : Position) (targetDistance : Int)
    (flee : Bool) (sightClear : Bool) (canWalk : Direction → Bool) (coin : Bool)
    (shuffled : List Direction) (stepDuration : Int) : DistanceStepResult :=
  let dx := getDistanceX creaturePos targetPos
  let dy := getDistanceY creaturePos targetPos
  let distance := max dx dy
  if ¬flee ∧ (distance > targetDistance ∨ ¬sightClear) then
    -- let the A* calculate it
    ⟨false, none, stepDuration⟩
  else if ¬flee ∧ distance = targetDistance then
    -- we don't really care here, it's what we wanted to reach
    ⟨true, none, stepDuration⟩
  else
    let offsetx := getOffsetX creaturePos targetPos
    let offsety := getOffsetY creaturePos targetPos
    let sd :=
      if dx ≤ 1 ∧ dy ≤ 1 then (if stepDuration < 2 then stepDuration + 1 else stepDuration)
      else (if stepDuration > 0 then stepDuration - 1 else stepDuration)
    if offsetx = 0 ∧ offsety = 0 then
      match getRandomStep canWalk shuffled with
      | some d => ⟨true, some d, sd⟩
      | none => ⟨false, none, sd⟩
    else if dx = dy ∧ offsetx ≥ 1 ∧ offsety ≥ 1 then
      -- target is NW: escape to SE, S or E
      let s := canWalk DIRECTION_SOUTH
      let e := canWalk DIRECTION_EAST
      if s ∧ e then ⟨true, some (if coin then DIRECTION_SOUTH else DIRECTION_EAST), sd⟩
      else if s then ⟨true, some DIRECTION_SOUTH, sd⟩
      else if e then ⟨true, some DIRECTION_EAST, sd⟩
      else if canWalk DIRECTION_SOUTHEAST then ⟨true, some DIRECTION_SOUTHEAST, sd⟩
      else
        let n := canWalk DIRECTION_NORTH
        let w := canWalk DIRECTION_WEST
        if flee ∧ n ∧ w then ⟨true, some (if coin then DIRECTION_NORTH else DIRECTION_WEST), sd⟩
        else if flee ∧ n then ⟨true, some DIRECTION_NORTH, sd⟩
        else if flee ∧ w then ⟨true, some DIRECTION_WEST, sd⟩
        else if w ∧ canWalk DIRECTION_SOUTHWEST then ⟨true, some DIRECTION_WEST, sd⟩
        else if n ∧ canWalk DIRECTION_NORTHEAST then ⟨true, some DIRECTION_NORTH, sd⟩
        else ⟨true, none, sd⟩
    else if dx = dy ∧ offsetx ≤ -1 ∧ offsety ≤ -1 then
      -- target is SE: escape to NW, W or N
      let w := canWalk DIRECTION_WEST
      let n := canWalk DIRECTION_NORTH
      if w ∧ n then ⟨true, some (if coin then DIRECTION_WEST else DIRECTION_NORTH), sd⟩
      else if w then ⟨true, some DIRECTION_WEST, sd⟩
      else if n then ⟨true, some DIRECTION_NORTH, sd⟩
      else if canWalk DIRECTION_NORTHWEST then ⟨true, some DIRECTION_NORTHWEST, sd⟩
      else
        let s := canWalk DIRECTION_SOUTH
        let e := canWalk DIRECTION_EAST
        if flee ∧ s ∧ e then ⟨true, some (if coin then DIRECTION_SOUTH else DIRECTION_EAST), sd⟩
        else if flee ∧ s then ⟨true, some DIRECTION_SOUTH, sd⟩
        else if flee ∧ e then ⟨true, some DIRECTION_EAST, sd⟩
        else if s ∧ canWalk DIRECTION_SOUTHWEST then ⟨true, some DIRECTION_SOUTH, sd⟩
        else if e ∧ canWalk DIRECTION_NORTHEAST then ⟨true, some DIRECTION_EAST, sd⟩
        else ⟨true, none, sd⟩
    else if dx = dy ∧ offsetx ≥ 1 ∧ offsety ≤ -1 then
      -- target is SW: escape to NE, N or E
      let n := canWalk DIRECTION_NORTH
      let e := canWalk DIRECTION_EAST
      if n ∧ e then ⟨true, some (if coin then DIRECTION_NORTH else DIRECTION_EAST), sd⟩
      else if n then ⟨true, some DIRECTION_NORTH, sd⟩
      else if e then ⟨true, some DIRECTION_EAST, sd⟩
      else if canWalk DIRECTION_NORTHEAST then ⟨true, some DIRECTION_NORTHEAST, sd⟩
      else
        let s := canWalk DIRECTION_SOUTH
        let w := canWalk DIRECTION_WEST
        if flee ∧ s ∧ w then ⟨true, some (if coin then DIRECTION_SOUTH else DIRECTION_WEST), sd⟩
        else if flee ∧ s then ⟨true, some DIRECTION_SOUTH, sd⟩
        else if flee ∧ w then ⟨true, some DIRECTION_WEST, sd⟩
        else if w ∧ canWalk DIRECTION_NORTHWEST then ⟨true, some DIRECTION_WEST, sd⟩
        else if s ∧ canWalk DIRECTION_SOUTHEAST then ⟨true, some DIRECTION_SOUTH, sd⟩
        else ⟨true, none, sd⟩
    else if dx = dy ∧ offsetx ≤ -1 ∧ offsety ≥ 1 then
      -- target is NE: escape to SW, S or W
      let w := canWalk DIRECTION_WEST
      let s := canWalk DIRECTION_SOUTH
      if w ∧ s then ⟨true, some (if coin then DIRECTION_WEST else DIRECTION_SOUTH), sd⟩
      else if w then ⟨true, some DIRECTION_WEST, sd⟩
      else if s then ⟨true, some DIRECTION_SOUTH, sd⟩
      else if canWalk DIRECTION_SOUTHWEST then ⟨true, some DIRECTION_SOUTHWEST, sd⟩
      else
        let n := canWalk DIRECTION_NORTH
        let e := canWalk DIRECTION_EAST
        if flee ∧ n ∧ e then ⟨true, some (if coin then DIRECTION_NORTH else DIRECTION_EAST), sd⟩
        else if flee ∧ n then ⟨true, some DIRECTION_NORTH, sd⟩
        else if flee ∧ e then ⟨true, some DIRECTION_EAST, sd⟩
        else if e ∧ canWalk DIRECTION_SOUTHEAST then ⟨true, some DIRECTION_EAST, sd⟩
        else if n ∧ canWalk DIRECTION_NORTHWEST then ⟨true, some DIRECTION_NORTH, sd⟩
        else ⟨true, none, sd⟩
    else if dy > dx then
      if ¬(offsety < 0) then
        -- target is to the NORTH: try SOUTH, then WEST/EAST, then diagonals
        if canWalk DIRECTION_SOUTH then ⟨true, some DIRECTION_SOUTH, sd⟩
        else
          let w := canWalk DIRECTION_WEST
          let e := canWalk DIRECTION_EAST
          if w ∧ e ∧ offsetx = 0 then
            ⟨true, some (if coin then DIRECTION_WEST else DIRECTION_EAST), sd⟩
          else if w ∧ offsetx ≤ 0 then ⟨true, some DIRECTION_WEST, sd⟩
          else if e ∧ offsetx ≥ 0 then ⟨true, some DIRECTION_EAST, sd⟩
          else if flee ∧ w ∧ e then
            ⟨true, some (if coin then DIRECTION_WEST else DIRECTION_EAST), sd⟩
          else if flee ∧ w then ⟨true, some DIRECTION_WEST, sd⟩
          else if flee ∧ e then ⟨true, some DIRECTION_EAST, sd⟩
          else
            let sw := canWalk DIRECTION_SOUTHWEST
            let se := canWalk DIRECTION_SOUTHEAST
            if sw ∨ se then
              if sw ∧ se then
                ⟨true, some (if coin then DIRECTION_SOUTHWEST else DIRECTION_SOUTHEAST), sd⟩
              else if w then ⟨true, some DIRECTION_WEST, sd⟩
              else if sw then ⟨true, some DIRECTION_SOUTHWEST, sd⟩
              else if e then ⟨true, some DIRECTION_EAST, sd⟩
              else if se then ⟨true, some DIRECTION_SOUTHEAST, sd⟩
              else ⟨true, none, sd⟩
            else if flee ∧ canWalk DIRECTION_NORTH then
              -- towards target
              ⟨true, some DIRECTION_NORTH, sd⟩
            else ⟨true, none, sd⟩
      else
        -- target is to the SOUTH: try NORTH, then WEST/EAST, then diagonals
        if canWalk DIRECTION_NORTH then ⟨true, some DIRECTION_NORTH, sd⟩
        else
          let w := canWalk DIRECTION_WEST
          let e := canWalk DIRECTION_EAST
          if w ∧ e ∧ offsetx = 0 then
            ⟨true, some (if coin then DIRECTION_WEST else DIRECTION_EAST), sd⟩
          else if w ∧ offsetx ≤ 0 then ⟨true, some DIRECTION_WEST, sd⟩
          else if e ∧ offsetx ≥ 0 then ⟨true, some DIRECTION_EAST, sd⟩
          else if flee ∧ w ∧ e then
            ⟨true, some (if coin then DIRECTION_WEST else DIRECTION_EAST), sd⟩
          else if flee ∧ w then ⟨true, some DIRECTION_WEST, sd⟩
          else if flee ∧ e then ⟨true, some DIRECTION_EAST, sd⟩
          else
            let nw := canWalk DIRECTION_NORTHWEST
            let ne := canWalk DIRECTION_NORTHEAST
            if nw ∨ ne then
              if nw ∧ ne then
                ⟨true, some (if coin then DIRECTION_NORTHWEST else DIRECTION_NORTHEAST), sd⟩
              else if w then ⟨true, some DIRECTION_WEST, sd⟩
              else if nw then ⟨true, some DIRECTION_NORTHWEST, sd⟩
              else if e then ⟨true, some DIRECTION_EAST, sd⟩
              else if ne then ⟨true, some DIRECTION_NORTHEAST, sd⟩
              else ⟨true, none, sd⟩
            else if flee ∧ canWalk DIRECTION_SOUTH then
              -- towards target
              ⟨true, some DIRECTION_SOUTH, sd⟩
            else ⟨true, none, sd⟩
    else
      if ¬(offsetx < 0) then
        -- target is to the WEST: try EAST, then NORTH/SOUTH, then diagonals
        if canWalk DIRECTION_EAST then ⟨true, some DIRECTION_EAST, sd⟩
        else
          let n := canWalk DIRECTION_NORTH
          let s := canWalk DIRECTION_SOUTH
          if n ∧ s ∧ offsety = 0 then
            ⟨true, some (if coin then DIRECTION_NORTH else DIRECTION_SOUTH), sd⟩
          else if n ∧ offsety ≤ 0 then ⟨true, some DIRECTION_NORTH, sd⟩
          else if s ∧ offsety ≥ 0 then ⟨true, some DIRECTION_SOUTH, sd⟩
          else if flee ∧ n ∧ s then
            ⟨true, some (if coin then DIRECTION_NORTH else DIRECTION_SOUTH), sd⟩
          else if flee ∧ n then ⟨true, some DIRECTION_NORTH, sd⟩
          else if flee ∧ s then ⟨true, some DIRECTION_SOUTH, sd⟩
          else
            let se := canWalk DIRECTION_SOUTHEAST
            let ne := canWalk DIRECTION_NORTHEAST
            if se ∨ ne then
              if se ∧ ne then
                ⟨true, some (if coin then DIRECTION_SOUTHEAST else DIRECTION_NORTHEAST), sd⟩
              else if s then ⟨true, some DIRECTION_SOUTH, sd⟩
              else if se then ⟨true, some DIRECTION_SOUTHEAST, sd⟩
              else if n then ⟨true, some DIRECTION_NORTH, sd⟩
              else if ne then ⟨true, some DIRECTION_NORTHEAST, sd⟩
              else ⟨true, none, sd⟩
            else if flee ∧ canWalk DIRECTION_WEST then
              -- towards target
              ⟨true, some DIRECTION_WEST, sd⟩
            else ⟨true, none, sd⟩
      else
        -- target is to the EAST: try WEST, then NORTH/SOUTH, then diagonals
        if canWalk DIRECTION_WEST then ⟨true, some DIRECTION_WEST, sd⟩
        else
          let n := canWalk DIRECTION_NORTH
          let s := canWalk DIRECTION_SOUTH
          if n ∧ s ∧ offsety = 0 then
            ⟨true, some (if coin then DIRECTION_NORTH else DIRECTION_SOUTH), sd⟩
          else if n ∧ offsety ≤ 0 then ⟨true, some DIRECTION_NORTH, sd⟩
          else if s ∧ offsety ≥ 0 then ⟨true, some DIRECTION_SOUTH, sd⟩
          else if flee ∧ n ∧ s then
            ⟨true, some (if coin then DIRECTION_NORTH else DIRECTION_SOUTH), sd⟩
          else if flee ∧ n then ⟨true, some DIRECTION_NORTH, sd⟩
          else if flee ∧ s then ⟨true, some DIRECTION_SOUTH, sd⟩
          else
            let nw := canWalk DIRECTION_NORTHWEST
            let sw := canWalk DIRECTION_SOUTHWEST
            if nw ∨ sw then
              if nw ∧ sw then
                ⟨true, some (if coin then DIRECTION_NORTHWEST else DIRECTION_SOUTHWEST), sd⟩
              else if n then ⟨true, some DIRECTION_NORTH, sd⟩
              else if nw then ⟨true, some DIRECTION_NORTHWEST, sd⟩
              else if s then ⟨true, some DIRECTION_SOUTH, sd⟩
              else if sw then ⟨true, some DIRECTION_SOUTHWEST, sd⟩
              else ⟨true, none, sd⟩
            else if flee ∧ canWalk DIRECTION_EAST then
              -- towards target
              ⟨true, some DIRECTION_EAST, sd⟩
            else ⟨true, none, sd⟩

/-- C1: for a non-summon monster with nonzero change-target speed whose
governor fires, the claimed strategy choice is nearest-only for melee
range; the code instead requests a random-strategy search at melee
range, refuting the claim at this concrete input. -/
theorem c1_counterexample :
    (onThinkTarget false 1000 100 1 1000 1 ⟨0, 0, 0⟩).search = some TARGETSEARCH_RANDOM ∧
      some TARGETSEARCH_RANDOM ≠ some TARGETSEARCH_NEAREST := by
  constructor
  · rfl
  · decide

/-- C1 (amended): when the governor fires (no focus lock, no pending
cooldown, accumulated ticks reach the change-target speed, chance roll
passes), `searchTarget` is invoked with the random strategy if the
template target distance is melee (≤ 1) and with the nearest-only
strategy otherwise. -/
theorem c1_amended (speed chance dist interval roll : Int) (s : ThinkTargetState)
    (hspeed : speed ≠ 0) (hfd : s.challengeFocusDuration ≤ 0)
    (hcd : s.targetChangeCooldown ≤ 0)
    (hticks : s.targetChangeTicks + interval ≥ speed) (hroll : chance ≥ roll) :
    (onThinkTarget false speed chance dist interval roll s).search =
      some (if dist ≤ 1 then TARGETSEARCH_RANDOM else TARGETSEARCH_NEAREST) := by
  have hfd' : ¬s.challengeFocusDuration > 0 := by omega
  have hcd' : ¬s.targetChangeCooldown > 0 := by omega
  simp only [onThinkTarget, Bool.false_eq_true, if_false, if_neg hspeed, if_neg hfd',
    if_neg hcd', if_pos hticks, if_pos hroll, if_true]

/-- Witness instantiating `c1_amended` at a concrete ranged monster. -/
theorem c1_witness :
    (onThinkTarget false 1000 100 4 1000 1 ⟨0, 0, 0⟩).search = some TARGETSEARCH_NEAREST := by
  have h := c1_amended 1000 100 4 1000 1 ⟨0, 0, 0⟩ (by decide) (by decide) (by decide)
    (by decide) (by decide)
  simpa using h

/-- C2: the claim says the dance step bails out (returns false) whenever
the Chebyshev distance to the target exceeds the target distance.  At a
concrete input with distance 3 and target distance 1, and a walkable
north tile, the routine instead qualifies a step and returns true. -/
theorem c2_counterexample :
    chebDist ⟨10, 10, 7⟩ ⟨13, 10, 7⟩ > 1 ∧
      (getDanceStep (some ⟨13, 10, 7⟩) ⟨10, 10, 7⟩ 1
          (fun d => d = DIRECTION_NORTH) (fun _ => false) true true).1 = true := by
  constructor
  · decide
  · rfl

/-- C2 (amended): the dance step bails out without proposing a move
whenever the Chebyshev distance from the monster to the attacked target
is strictly LESS than the monster's target distance (the source skips
repositioning when still closer than the desired range, not when
farther). -/
theorem c2_amended (centerPos creaturePos : Position) (targetDistance : Int)
    (canWalkTo : Direction → Bool) (canUseAttackFrom : Position → Bool)
    (keepAttack keepDistance : Bool)
    (hclose : chebDist creaturePos centerPos < targetDistance) :
    (getDanceStep (some centerPos) creaturePos targetDistance
        canWalkTo canUseAttackFrom keepAttack keepDistance) = (false, []) := by
  have h : max |getOffsetX creaturePos centerPos| |getOffsetY creaturePos centerPos| <
      targetDistance := by
    simpa [chebDist, getDistanceX, getDistanceY, getOffsetX, getOffsetY] using hclose
  simp only [getDanceStep, if_pos h]

/-- Witness instantiating `c2_amended`: adjacent to the target with
target distance 4, the dance step refuses to move. -/
theorem c2_witness :
    (getDanceStep (some ⟨11, 10, 7⟩) ⟨10, 10, 7⟩ 4
        (fun _ => true) (fun _ => true) true true) = (false, []) :=
  c2_amended ⟨11, 10, 7⟩ ⟨10, 10, 7⟩ 4 (fun _ => true) (fun _ => true) true true (by decide)

/-- C5: with eligible candidates at Chebyshev distances 3, 5 and 2 from
the searcher, all of the default (zero) faction, the nearest-strategy
selection picks the distance-2 candidate. -/
theorem c5_nearest_picks_distance_two :
    chebDist ⟨10, 10, 7⟩ ⟨13, 10, 7⟩ = 3 ∧
      chebDist ⟨10, 10, 7⟩ ⟨15, 10, 7⟩ = 5 ∧
      chebDist ⟨10, 10, 7⟩ ⟨12, 10, 7⟩ = 2 ∧
      searchTargetNearest ⟨10, 10, 7⟩
          [⟨⟨13, 10, 7⟩, 0⟩, ⟨⟨15, 10, 7⟩, 0⟩, ⟨⟨12, 10, 7⟩, 0⟩] =
        some ⟨⟨12, 10, 7⟩, 0⟩ := by
  refine ⟨by decide, by decide, by decide, ?_⟩
  rfl

/-- C7: a non-summon monster with no status conditions and an empty
target list becomes idle exactly when standing on its spawn anchor;
one tile off the anchor it stays active and enters the walking-back
state instead. -/
theorem c7_idle_vs_walkback (inp : IdleInput)
    (hcond : inp.conditionsEmpty = true) (hsum : inp.isSummon = false)
    (htgt : inp.targetListEmpty = true) (hspawn : inp.hasSpawnMonster = true)
    (hanchor : inp.masterPos ≠ Position.zero) :
    (inp.position = inp.masterPos →
        updateIdleStatus inp = ⟨true, inp.isWalkingBack⟩) ∧
      (inp.position ≠ inp.masterPos → updateIdleStatus inp = ⟨false, true⟩) := by
  constructor
  · intro hat
    have hloc : isInSpawnLocation inp.hasSpawnMonster inp.position inp.masterPos = true := by
      simp [isInSpawnLocation, hspawn, hat]
    simp [updateIdleStatus, hcond, hsum, htgt, hloc]
  · intro hoff
    have hloc : isInSpawnLocation inp.hasSpawnMonster inp.position inp.masterPos = false := by
      simp [isInSpawnLocation, hspawn, hoff, hanchor]
    simp [updateIdleStatus, hcond, hsum, htgt, hloc]

/-- Witness instantiating `c7_idle_vs_walkback` one tile off the anchor:
the monster stays active and starts walking back. -/
theorem c7_witness :
    updateIdleStatus ⟨true, false, true, true, ⟨101, 100, 7⟩, ⟨100, 100, 7⟩,
        false, 0, false, 0, 0, false⟩ = ⟨false, true⟩ := by
  have h := (c7_idle_vs_walkback ⟨true, false, true, true, ⟨101, 100, 7⟩, ⟨100, 100, 7⟩,
      false, 0, false, 0, 0, false⟩ rfl rfl rfl rfl (by decide)).2 (by decide)
  exact h

/-- The cooldown helper can only clear the shared reset flag, never set it. -/
theorem canUseSpell_resetTicks_mono (pos targetPos : Position) (sb : spellBlock_t)
    (interval : Int) (fleeing : Bool) (now : Int) (st : AttackState) :
    (canUseSpell pos targetPos sb interval false fleeing now st).resetTicks = false := by
  unfold canUseSpell
  split_ifs <;> rfl

/-- A pending non-melee ability (real spell, period above the accumulator)
clears the shared reset flag whatever the rest of the state is. -/
theorem canUseSpell_pending_nonmelee (pos targetPos : Position) (sb : spellBlock_t)
    (interval : Int) (resetTicks fleeing : Bool) (now : Int) (st : AttackState)
    (hm : sb.isMelee = false) (hp : sb.speed > st.attackTicks) :
    (canUseSpell pos targetPos sb interval resetTicks fleeing now st).resetTicks = false := by
  unfold canUseSpell
  split_ifs <;> simp_all

/-- The attack loop body never touches the accumulator itself. -/
theorem doAttackingStep_attackTicks (pos targetPos : Position) (interval : Int)
    (fleeing : Bool) (now : Int) (roll : Nat → Int) (acc : AttackLoopState)
    (isb : Nat × spellBlock_t) :
    (doAttackingStep pos targetPos interval fleeing now roll acc isb).st.attackTicks =
      acc.st.attackTicks := by
  simp only [doAttackingStep]
  split_ifs <;> rfl

/-- The attack loop body can only clear the shared reset flag. -/
theorem doAttackingStep_resetTicks_mono (pos targetPos : Position) (interval : Int)
    (fleeing : Bool) (now : Int) (roll : Nat → Int) (acc : AttackLoopState)
    (isb : Nat × spellBlock_t) (h : acc.resetTicks = false) :
    (doAttackingStep pos targetPos interval fleeing now roll acc isb).resetTicks = false := by
  simp only [doAttackingStep, h]
  split_ifs <;>
    first
      | exact h
      | exact canUseSpell_resetTicks_mono pos targetPos isb.2 interval fleeing now acc.st

/-- A pending non-melee ability clears the shared reset flag in the loop body. -/
theorem doAttackingStep_pending (pos targetPos : Position) (interval : Int)
    (fleeing : Bool) (now : Int) (roll : Nat → Int) (acc : AttackLoopState)
    (isb : Nat × spellBlock_t) (hs : isb.2.hasSpell = true) (hm : isb.2.isMelee = false)
    (hp : isb.2.speed > acc.st.attackTicks) :
    (doAttackingStep pos targetPos interval fleeing now roll acc isb).resetTicks = false := by
  have hskip : ¬(¬isb.2.hasSpell = true ∨ (isb.2.isMelee = true ∧ fleeing = true)) := by
    simp [hs, hm]
  simp only [doAttackingStep, if_neg hskip]
  split_ifs <;>
    exact canUseSpell_pending_nonmelee pos targetPos isb.2 interval acc.resetTicks fleeing now
      acc.st hm hp

/-- The whole attack loop never touches the accumulator. -/
theorem doAttackingFold_attackTicks (pos targetPos : Position) (interval : Int)
    (fleeing : Bool) (now : Int) (roll : Nat → Int) :
    ∀ (l : List (Nat × spellBlock_t)) (acc : AttackLoopState),
      (l.foldl (doAttackingStep pos targetPos interval fleeing now roll) acc).st.attackTicks =
        acc.st.attackTicks := by
  intro l
  induction l with
  | nil => intro acc; rfl
  | cons p t ih =>
    intro acc
    rw [List.foldl_cons, ih, doAttackingStep_attackTicks]

/-- Once cleared, the reset flag stays cleared for the rest of the loop. -/
theorem doAttackingFold_resetTicks_mono (pos targetPos : Position) (interval : Int)
    (fleeing : Bool) (now : Int) (roll : Nat → Int) :
    ∀ (l : List (Nat × spellBlock_t)) (acc : AttackLoopState), acc.resetTicks = false →
      (l.foldl (doAttackingStep pos targetPos interval fleeing now roll) acc).resetTicks =
        false := by
  intro l
  induction l with
  | nil => intro acc h; exact h
  | cons p t ih =>
    intro acc h
    rw [List.foldl_cons]
    exact ih _ (doAttackingStep_resetTicks_mono pos targetPos interval fleeing now roll acc p h)

/-- If some entry of the loop is a pending non-melee ability with a real
spell, the loop ends with the reset flag cleared. -/
theorem doAttackingFold_pending (pos targetPos : Position) (interval : Int)
    (fleeing : Bool) (now : Int) (roll : Nat → Int) :
    ∀ (l : List (Nat × spellBlock_t)) (acc : AttackLoopState),
      (∃ p ∈ l, p.2.hasSpell = true ∧ p.2.isMelee = false ∧ p.2.speed > acc.st.attackTicks) →
      (l.foldl (doAttackingStep pos targetPos interval fleeing now roll) acc).resetTicks =
        false := by
  intro l
  induction l with
  | nil => rintro acc ⟨p, hp, _⟩; cases hp
  | cons q t ih =>
    rintro acc ⟨p, hp, hspell, hmelee, hpend⟩
    rw [List.foldl_cons]
    rcases List.mem_cons.mp hp with hq | ht
    · subst hq
      exact doAttackingFold_resetTicks_mono pos targetPos interval fleeing now roll t _
        (doAttackingStep_pending pos targetPos interval fleeing now roll acc p hspell hmelee
          hpend)
    · refine ih _ ⟨p, ht, hspell, hmelee, ?_⟩
      rw [doAttackingStep_attackTicks]
      exact hpend

/-- C3: at this concrete input a configured melee ability with a real
spell has period 2000 exceeding the accumulator (1000), and it was not
ready to fire (it is inside the 1.5-second melee grace window), yet the
accumulator is reset to zero: the claim's "never reset while some
configured attack ability's period still exceeds the accumulator" fails
on the code. -/
theorem c3_counterexample :
    (doAttacking true ⟨10, 10, 7⟩ ⟨10, 10, 7⟩ [⟨2000, 0, 30, true, true, 1, 5⟩] 1000 false 2000
        (fun _ => 1) ⟨0, false, 1000, 0, 0⟩) = ⟨⟨0, false, 1000, 0, 0⟩, []⟩ ∧
      (2000 : Int) > 0 + 1000 := by
  constructor
  · rfl
  · decide

/-- C3 (amended): with a nonzero interval, the attack-tick accumulator is
never reset while some configured NON-MELEE attack ability with a real
spell has a period exceeding the accumulator; melee abilities bypassed
through the extra-swing carve-out or the 1.5-second melee grace window
do not block the reset. -/
theorem c3_amended (pos targetPos : Position) (spells : List spellBlock_t) (interval : Int)
    (fleeing : Bool) (now : Int) (roll : Nat → Int) (st0 : AttackState)
    (hpend : ∃ sb ∈ spells, sb.hasSpell = true ∧ sb.isMelee = false ∧
      sb.speed > st0.attackTicks + interval) :
    (doAttacking true pos targetPos spells interval fleeing now roll st0).st.attackTicks =
      st0.attackTicks + interval := by
  obtain ⟨sb, hmem, hspell, hmelee, hspeed⟩ := hpend
  have hpair : ∃ p ∈ spells.enum, p.2 = sb := by
    have : sb ∈ spells.enum.map Prod.snd := by rw [List.enum_map_snd]; exact hmem
    obtain ⟨p, hp, hps⟩ := List.mem_map.mp this
    exact ⟨p, hp, hps⟩
  obtain ⟨p, hpmem, hps⟩ := hpair
  have hreset : (spells.enum.foldl (doAttackingStep pos targetPos interval fleeing now roll)
      ⟨{ st0 with attackTicks := st0.attackTicks + interval }, decide (interval ≠ 0), true,
        []⟩).resetTicks = false := by
    refine doAttackingFold_pending pos targetPos interval fleeing now roll spells.enum _
      ⟨p, hpmem, ?_, ?_, ?_⟩ <;> rw [hps]
    · exact hspell
    · exact hmelee
    · exact hspeed
  simp only [doAttacking, not_true, Bool.false_eq_true, if_false, hreset]
  rw [doAttackingFold_attackTicks]

/-- Witness instantiating `c3_amended`: a slow non-melee ability keeps the
accumulator from being reset. -/
theorem c3_witness :
    (doAttacking true ⟨10, 10, 7⟩ ⟨10, 10, 7⟩ [⟨2000, 0, 30, false, true, 1, 5⟩] 1000 false 2000
        (fun _ => 1) ⟨0, false, 1000, 0, 0⟩).st.attackTicks = 0 + 1000 :=
  c3_amended ⟨10, 10, 7⟩ ⟨10, 10, 7⟩ [⟨2000, 0, 30, false, true, 1, 5⟩] 1000 false 2000
    (fun _ => 1) ⟨0, false, 1000, 0, 0⟩
    ⟨⟨2000, 0, 30, false, true, 1, 5⟩, by decide, rfl, rfl, by decide⟩

/-- C4: for a non-melee attack ability with a real spell and period 20
ticked with interval 10: with the accumulator at 10 the cooldown test
rejects the ability; with the accumulator at 20 it accepts it, so the
ability is eligible subject only to its range check (and then the chance
roll); and a first doAttacking round from accumulator 0 leaves the
accumulator at 10 with nothing cast. -/
theorem c4_period20_interval10 (sb : spellBlock_t) (hsp : sb.speed = 20)
    (hm : sb.isMelee = false) (hs : sb.hasSpell = true) :
    (∀ (pos targetPos : Position) (resetIn fleeing : Bool) (now : Int) (st : AttackState),
        st.attackTicks = 10 →
        (canUseSpell pos targetPos sb 10 resetIn fleeing now st).ok = false) ∧
      (∀ (pos targetPos : Position) (resetIn fleeing : Bool) (now : Int) (st : AttackState),
        st.attackTicks = 20 →
        ((canUseSpell pos targetPos sb 10 resetIn fleeing now st).ok = true ↔
          (sb.range = 0 ∨ chebDist pos targetPos ≤ sb.range))) ∧
      (∀ (pos targetPos : Position) (fleeing : Bool) (now : Int) (roll : Nat → Int)
          (em : Bool) (lm mc mC : Int),
        (doAttacking true pos targetPos [sb] 10 fleeing now roll
            ⟨0, em, lm, mc, mC⟩).st.attackTicks = 10 ∧
          (doAttacking true pos targetPos [sb] 10 fleeing now roll
              ⟨0, em, lm, mc, mC⟩).casts = []) := by
  refine ⟨?_, ?_, ?_⟩
  · intro pos targetPos resetIn fleeing now st hticks
    unfold canUseSpell
    split_ifs <;> simp_all
  · intro pos targetPos resetIn fleeing now st hticks
    unfold canUseSpell
    split_ifs <;> simp_all <;> omega
  · intro pos targetPos fleeing now roll em lm mc mC
    constructor <;>
      simp [doAttacking, doAttackingStep, canUseSpell, List.enum, hm, hs, hsp]

/-- Witness instantiating `c4_period20_interval10` at a concrete ability:
rejected at accumulator 10, accepted at accumulator 20 in range. -/
theorem c4_witness :
    (canUseSpell ⟨10, 10, 7⟩ ⟨12, 10, 7⟩ ⟨20, 0, 30, false, true, 0, 0⟩ 10 true false 0
        ⟨10, false, 0, 0, 0⟩).ok = false ∧
      (canUseSpell ⟨10, 10, 7⟩ ⟨12, 10, 7⟩ ⟨20, 0, 30, false, true, 0, 0⟩ 10 true false 0
          ⟨20, false, 0, 0, 0⟩).ok = true := by
  have h := c4_period20_interval10 ⟨20, 0, 30, false, true, 0, 0⟩ rfl rfl rfl
  refine ⟨h.1 ⟨10, 10, 7⟩ ⟨12, 10, 7⟩ true false 0 ⟨10, false, 0, 0, 0⟩ rfl, ?_⟩
  exact (h.2.1 ⟨10, 10, 7⟩ ⟨12, 10, 7⟩ true false 0 ⟨20, false, 0, 0, 0⟩ rfl).mpr
    (Or.inl rfl)

/-- One summon-loop step keeps every per-entry name count within
`min maxSummons entry.count`, provided entry names are pairwise
distinct. -/
theorem summonStep_inv (maxSummons : Nat) (interval ticks : Int) (sroll : Nat → Int)
    (createOk : Nat → Bool) (blocks : List summonBlock_t)
    (hnd : (blocks.map summonBlock_t.name).Nodup) (acc : List Nat × Bool)
    (ib : Nat × summonBlock_t) (hib : ib.2 ∈ blocks)
    (hinv : ∀ b ∈ blocks, acc.1.count b.name ≤ min maxSummons b.count) :
    ∀ b ∈ blocks,
      (summonStep maxSummons interval ticks sroll createOk acc ib).1.count b.name ≤
        min maxSummons b.count := by
  intro b hb
  simp only [summonStep]
  split_ifs with h1 h2 h3 h4 h5 h6 <;> try exact hinv b hb
  -- the append branch
  by_cases hname : ib.2.name = b.name
  · have hbe : ib.2 = b := List.inj_on_of_nodup_map hnd hib hb hname
    rw [List.count_append, hname, List.count_singleton' b.name b.name, if_pos rfl]
    have hcnt : List.count b.name acc.1 < b.count := by
      rw [hbe] at h4
      omega
    have hcl : List.count b.name acc.1 ≤ acc.1.length := List.count_le_length b.name acc.1
    refine le_min ?_ ?_ <;> omega
  · rw [List.count_append, List.count_singleton' b.name ib.2.name, if_neg hname]
    simpa using hinv b hb

/-- The whole summon loop keeps every per-entry name count within
`min maxSummons entry.count`, provided entry names are pairwise
distinct. -/
theorem summonFold_inv (maxSummons : Nat) (interval ticks : Int) (sroll : Nat → Int)
    (createOk : Nat → Bool) (blocks : List summonBlock_t)
    (hnd : (blocks.map summonBlock_t.name).Nodup) :
    ∀ (l : List (Nat × summonBlock_t)) (acc : List Nat × Bool),
      (∀ p ∈ l, p.2 ∈ blocks) →
      (∀ b ∈ blocks, acc.1.count b.name ≤ min maxSummons b.count) →
      ∀ b ∈ blocks,
        ((l.foldl (summonStep maxSummons interval ticks sroll createOk) acc).1.count b.name ≤
          min maxSummons b.count) := by
  intro l
  induction l with
  | nil => intro acc _ hinv; exact hinv
  | cons q t ih =>
    intro acc hsub hinv
    rw [List.foldl_cons]
    refine ih _ (fun p hp => hsub p (List.mem_cons_of_mem q hp)) ?_
    exact summonStep_inv maxSummons interval ticks sroll createOk blocks hnd acc q
      (hsub q (List.mem_cons_self q t)) hinv

/-- C6: with two summon entries sharing one name (caps 5 and 3,
maxSummons 10), three defense rounds from an empty summon list drive the
live count of that name to 4, exceeding `min maxSummons count` of the
cap-3 entry: the claim fails on the code for duplicate-name entries. -/
theorem c6_counterexample :
    (onThinkDefense false true 10 [] [⟨0, 100, 100, 5, false⟩, ⟨0, 100, 100, 3, false⟩] 100
          (fun _ => 1) (fun _ => true)
          (onThinkDefense false true 10 [] [⟨0, 100, 100, 5, false⟩, ⟨0, 100, 100, 3, false⟩]
            100 (fun _ => 1) (fun _ => true)
            (onThinkDefense false true 10 []
              [⟨0, 100, 100, 5, false⟩, ⟨0, 100, 100, 3, false⟩] 100 (fun _ => 1)
              (fun _ => true) ⟨0, []⟩))).summons.count 0 = 4 ∧
      (⟨0, 100, 100, 3, false⟩ : summonBlock_t) ∈
        [(⟨0, 100, 100, 5, false⟩ : summonBlock_t), ⟨0, 100, 100, 3, false⟩] ∧
      4 > min 10 3 := by
  refine ⟨rfl, ?_, ?_⟩ <;> decide

/-- C6 (amended): provided each summon name appears in at most one
configured entry, a defense round never pushes the caster's live count
of an entry's name beyond `min maxSummons entry.count`; and no summon is
ever instantiated without an active follow path. -/
theorem c6_amended (isSummon hasFollowPath : Bool) (maxSummons : Nat)
    (defenseSpells : List spellBlock_t) (blocks : List summonBlock_t) (interval : Int)
    (sroll : Nat → Int) (createOk : Nat → Bool) (st : DefenseState)
    (hnd : (blocks.map summonBlock_t.name).Nodup)
    (hinv : ∀ b ∈ blocks, st.summons.count b.name ≤ min maxSummons b.count) :
    (∀ b ∈ blocks,
        (onThinkDefense isSummon hasFollowPath maxSummons defenseSpells blocks interval
            sroll createOk st).summons.count b.name ≤ min maxSummons b.count) ∧
      (hasFollowPath = false →
        (onThinkDefense isSummon hasFollowPath maxSummons defenseSpells blocks interval
            sroll createOk st).summons = st.summons) := by
  constructor
  · intro b hb
    simp only [onThinkDefense]
    split_ifs with hguard
    · refine summonFold_inv maxSummons interval (st.defenseTicks + interval) sroll createOk
        blocks hnd blocks.enum _ ?_ hinv b hb
      intro p hp
      have : p.2 ∈ blocks.enum.map Prod.snd := List.mem_map_of_mem Prod.snd hp
      rwa [List.enum_map_snd] at this
    · exact hinv b hb
  · intro hfp
    have hguard : ¬(¬isSummon = true ∧ st.summons.length < maxSummons ∧
        hasFollowPath = true) := by
      rw [hfp]; simp
    simp only [onThinkDefense, if_neg hguard]

/-- Witness instantiating `c6_amended` at two distinct-name entries whose
caps are already met: the round keeps the count within the cap. -/
theorem c6_witness :
    (onThinkDefense false true 10 [] [⟨0, 100, 100, 2, false⟩, ⟨1, 100, 100, 1, false⟩] 100
        (fun _ => 1) (fun _ => true) ⟨0, [0, 0, 1]⟩).summons.count 0 ≤ min 10 2 :=
  (c6_amended false true 10 [] [⟨0, 100, 100, 2, false⟩, ⟨1, 100, 100, 1, false⟩] 100
      (fun _ => 1) (fun _ => true) ⟨0, [0, 0, 1]⟩ (by decide) (by decide)).1
    ⟨0, 100, 100, 2, false⟩ (by decide)

/-- C8: after the death routine, the attacked-target reference is
cleared, the target and friend sets are empty, the summon list is
dropped, and every (non-null) summon it owned is left force-killed with
its master reference nulled. -/
theorem c8_death_cleanup (st : MonsterDeathState) :
    (death st).1.attackedCreature = none ∧ (death st).1.targetList = [] ∧
      (death st).1.friendList = [] ∧ (death st).1.summons = [] ∧
      (death st).1.dead = true ∧
      ∀ os ∈ (death st).2, ∀ s : SummonState, os = some s →
        s.health = 0 ∧ s.master = none := by
  refine ⟨rfl, rfl, rfl, rfl, rfl, ?_⟩
  intro os hos s hs
  obtain ⟨x, _, hfx⟩ := List.mem_map.mp hos
  cases x with
  | none => rw [← hfx] at hs; cases hs
  | some t =>
    rw [← hfx] at hs
    have := Option.some.inj hs
    rw [← this]
    exact ⟨rfl, rfl⟩

/-- Witness instantiating `c8_death_cleanup` on a monster owning one
summon: the released summon comes out dead and masterless. -/
theorem c8_witness :
    (death ⟨some 3, [some ⟨7, 50, some 1⟩], [3, 4], [5], false⟩).1.attackedCreature = none ∧
      ∀ s : SummonState, some s ∈ (death ⟨some 3, [some ⟨7, 50, some 1⟩], [3, 4], [5],
          false⟩).2 → s.health = 0 ∧ s.master = none := by
  have h := c8_death_cleanup ⟨some 3, [some ⟨7, 50, some 1⟩], [3, 4], [5], false⟩
  exact ⟨h.1, fun s hs => h.2.2.2.2.2 (some s) hs s rfl⟩

/-- C9: a summon whose master is a player treats every non-null creature
whose id differs from the master's as an opponent (party members and
other players' summons included), never treats the master as an
opponent, and at the same time classifies the master's player partners
as friends. -/
theorem c9_player_summon_targeting (world : Nat → Option CreatureM)
    (partner : Nat → Nat → Bool) (enemyFaction : Int → Bool) (factionPlayer : Int)
    (self p : CreatureM) (pid : Nat) (hm : self.masterId = some pid)
    (hw : world pid = some p) (hp : p.isPlayerC = true) :
    (∀ c : CreatureM, c.cid ≠ pid →
        isOpponent world enemyFaction factionPlayer self (some c) = true) ∧
      (∀ c : CreatureM, c.cid = pid →
        isOpponent world enemyFaction factionPlayer self (some c) = false) ∧
      isOpponent world enemyFaction factionPlayer self none = false ∧
      (∀ c : CreatureM, c.isPlayerC = true → partner pid c.cid = true →
        isFriend world partner self c = true) := by
  have hmp : masterPlayerId world self = some pid := by
    simp [masterPlayerId, hm, hw, hp]
  refine ⟨?_, ?_, rfl, ?_⟩
  · intro c hc
    simp [isOpponent, hmp, hc]
  · intro c hc
    simp [isOpponent, hmp, hc]
  · intro c hcp hpart
    simp [isFriend, hmp, hcp, hpart]

/-- Witness instantiating `c9_player_summon_targeting`: summon 9 of
player 5 sees player 7 (the master's partner) as an opponent while also
counting that partner as a friend, and never opposes its master. -/
theorem c9_witness :
    (isOpponent (fun n => if n = 5 then some ⟨5, true, false, none, 0, false⟩ else none)
        (fun _ => false) 1 ⟨9, false, true, some 5, 0, false⟩
        (some ⟨7, true, false, none, 0, false⟩) = true) ∧
      (isOpponent (fun n => if n = 5 then some ⟨5, true, false, none, 0, false⟩ else none)
          (fun _ => false) 1 ⟨9, false, true, some 5, 0, false⟩
          (some ⟨5, true, false, none, 0, false⟩) = false) ∧
      (isFriend (fun n => if n = 5 then some ⟨5, true, false, none, 0, false⟩ else none)
          (fun a b => a = 5 ∧ b = 7) ⟨9, false, true, some 5, 0, false⟩
          ⟨7, true, false, none, 0, false⟩ = true) := by
  have h := c9_player_summon_targeting
    (fun n => if n = 5 then some ⟨5, true, false, none, 0, false⟩ else none)
    (fun a b => a = 5 ∧ b = 7) (fun _ => false) 1 ⟨9, false, true, some 5, 0, false⟩
    ⟨5, true, false, none, 0, false⟩ 5 rfl (by decide) rfl
  refine ⟨?_, ?_, ?_⟩
  · exact h.1 ⟨7, true, false, none, 0, false⟩ (by decide)
  · exact h.2.1 ⟨5, true, false, none, 0, false⟩ rfl
  · exact h.2.2.2 ⟨7, true, false, none, 0, false⟩ rfl (by decide)

/-- C10: with the target three tiles south, a target distance of 5, sight
clear, and every direction blocked, the axis-aligned SOUTH branch falls
through its whole decision table: getDistanceStep returns true without
assigning any move direction. -/
theorem c10_returns_true_without_direction :
    getDistanceStep ⟨10, 10, 7⟩ ⟨10, 13, 7⟩ 5 false true (fun _ => false) true [] 0 =
      ⟨true, none, 0⟩ := by
  rfl

end MonsterAI
